import Mathlib

/-!
Shallow embedding of the VideoGenius generator (`src/app.py`), covering the
configuration loader, the chart-animation sequencer, the title sequencer, the
crossfade transition and the media assembler.  External collaborators
(matplotlib figure rasterisation, cv2 resize interpolation) are taken as
function parameters; everything the repository itself computes is embedded
directly.
-/

namespace VideoGenius

/-! ## Configuration document model (`_load_config`) -/

/-- The recognised top-level keys of the configuration document. -/
inductive ConfigKey where
  | resolution
  | fps
  | chart_types
  | colors
  | voice
deriving DecidableEq

/-- Values a configuration entry can hold, mirroring the default document:
a resolution pair, the fps number, the chart-type list, the colour triple
(title background, chart background, text) and the voice triple
(rate, volume, voice id). -/
inductive ConfigValue where
  | pair : Nat → Nat → ConfigValue
  | num : Nat → ConfigValue
  | strs : List String → ConfigValue
  | colorSet : String → String → String → ConfigValue
  | voiceSet : Nat → ℚ → String → ConfigValue
deriving DecidableEq

/-- A configuration document on disk: some subset of the recognised keys,
each with a value. -/
def ConfigDoc := ConfigKey → Option ConfigValue

/-- `default_config` from `_load_config`. -/
def default_config : ConfigKey → ConfigValue
  | ConfigKey.resolution => ConfigValue.pair 1280 720
  | ConfigKey.fps => ConfigValue.num 24
  | ConfigKey.chart_types => ConfigValue.strs ["line", "bar", "scatter"]
  | ConfigKey.colors => ConfigValue.colorSet "#2c3e50" "#ecf0f1" "#ffffff"
  | ConfigKey.voice => ConfigValue.voiceSet 150 1 "english"

/-- `_load_config`: `fs` models the on-disk filesystem (path to document).
`if config_path and os.path.exists(config_path): return dict-merge of the
defaults under the document; else return the defaults`. -/
def _load_config (fs : String → Option ConfigDoc) (config_path : Option String) :
    ConfigKey → ConfigValue :=
  match config_path with
  | none => default_config
  | some p =>
    match fs p with
    | some doc => fun k => (doc k).getD (default_config k)
    | none => default_config

/-! ## Runtime configuration used by the pipeline -/

/-- The configuration entries the rendering pipeline reads:
`config["resolution"]`, `config["fps"]`, `config["chart_types"]`,
`config["colors"]["title_bg"]`. -/
structure Config where
  resolution : Nat × Nat
  fps : Nat
  chart_types : List String
  title_bg : String
deriving DecidableEq

/-- The default runtime configuration (from `default_config`). -/
def default_cfg : Config :=
  { resolution := (1280, 720)
    fps := 24
    chart_types := ["line", "bar", "scatter"]
    title_bg := "#2c3e50" }

/-! ## Frames and the chart animation (`generate_chart_animation`) -/

/-- A raster image: width, height, and its pixel channel values (one rational
per 8-bit channel sample, row-major). -/
structure Image where
  width : Nat
  height : Nat
  pix : List ℚ
deriving DecidableEq

/-- `cv2.resize(img, dsize)`: the interpolation kernel is external, but the
output raster has exactly the requested `dsize = (width, height)`. -/
def cvResize (interp : List ℚ → Nat → Nat → List ℚ) (img : Image)
    (dsize : Nat × Nat) : Image :=
  { width := dsize.1, height := dsize.2, pix := interp img.pix dsize.1 dsize.2 }

/-- `_apply_transition`: `alpha = min(1.0, frame_num / 10)` and
`cv2.addWeighted(img, alpha, img, 1 - alpha, 0)`, i.e. every pixel becomes
`x * alpha + x * (1 - alpha)`. -/
def _apply_transition (img : Image) (frame_num : Nat) : Image :=
  let alpha : ℚ := min 1 ((frame_num : ℚ) / 10)
  { img with pix := img.pix.map (fun x => x * alpha + x * (1 - alpha)) }

/-- `_validate_chart_type`: raise `ValueError` when the requested chart type
is not in `config["chart_types"]`. -/
def _validate_chart_type (cfg : Config) (chart_type : String) :
    Except String Unit :=
  if chart_type ∉ cfg.chart_types then
    Except.error ("Invalid chart type. Choose from: " ++
      String.intercalate ", " cfg.chart_types)
  else
    Except.ok ()

/-- `generate_chart_animation`: validate the chart type, unpack
`height, width = config["resolution"]`, then for `frame` in `1 .. len(years)`
plot the prefixes `years[:frame]`, `values[:frame]`, rasterise the figure
(`fig_render`, the external matplotlib collaborator), resize to
`(width, height)`, apply the transition when `frame > 1`, and write the frame.
The returned list is the segment's frames in emission order. -/
def generate_chart_animation (cfg : Config)
    (fig_render : List Int → List ℚ → String → Image)
    (interp : List ℚ → Nat → Nat → List ℚ)
    (years : List Int) (values : List ℚ) (chart_type : String) :
    Except String (List Image) :=
  match _validate_chart_type cfg chart_type with
  | Except.error e => Except.error e
  | Except.ok _ =>
    let height := cfg.resolution.1
    let width := cfg.resolution.2
    Except.ok ((List.range years.length).map (fun i =>
      let frame := i + 1
      let img := fig_render (years.take frame) (values.take frame) chart_type
      let resized := cvResize interp img (width, height)
      if 1 < frame then _apply_transition resized frame else resized))

/-! ## Title screen (`create_title_screen`, `_create_animated_frame`) -/

/-- One title frame: its raster dimensions (`np.zeros((resolution[1],
resolution[0], 3))`), the background fill colour, the revealed title prefix
drawn by `cv2.putText`, and (once `frame_num > 15`) the description text with
its fade-in channel intensity `int(255 * alpha)`. -/
structure TitleFrame where
  width : Nat
  height : Nat
  bg : String
  titleText : List Char
  descText : Option (List Char × Nat)
deriving DecidableEq

/-- `_create_animated_frame`: `text_offset = int(frame_num / 3)`, title prefix
`title[:text_offset]`; description appears when `frame_num > 15` with
`alpha = min(1.0, (frame_num - 15) / 30)`. -/
def _create_animated_frame (cfg : Config) (frame_num : Nat)
    (title description : List Char) : TitleFrame :=
  let text_offset := frame_num / 3
  { width := cfg.resolution.1
    height := cfg.resolution.2
    bg := cfg.title_bg
    titleText := title.take text_offset
    descText :=
      if 15 < frame_num then
        some (description,
          Int.toNat ⌊(255 : ℚ) * min 1 (((frame_num : ℚ) - 15) / 30)⌋)
      else none }

/-- `create_title_screen`: `for i in range(3 * config["fps"])` write
`_create_animated_frame(i, title, description)`. -/
def create_title_screen (cfg : Config) (title description : List Char) :
    List TitleFrame :=
  (List.range (3 * cfg.fps)).map (fun i =>
    _create_animated_frame cfg i title description)

/-! ## Media assembly (`combine_media`) -/

/-- A video segment file as opened by `VideoFileClip`: resolution,
frame rate and frames. -/
structure VideoSegmentFile where
  width : Nat
  height : Nat
  fps : Nat
  frames : List Image
deriving DecidableEq

/-- An audio clip: sample rate, samples and the accumulated gain multiplier. -/
structure AudioClip where
  sample_rate : Nat
  samples : List ℚ
  gain : ℚ
deriving DecidableEq

/-- `volumex`: scale a clip's gain. -/
def volumex (c : AudioClip) (g : ℚ) : AudioClip :=
  { c with gain := c.gain * g }

/-- What `combine_media` hands to the external encoder
(`write_videofile`): the concatenated frame stream and the audio tracks given
to `CompositeAudioClip`. -/
structure FinalVideo where
  frames : List Image
  audio : List AudioClip
deriving DecidableEq

/-- `combine_media`: concatenate the title clip's frames with the animation
clip's frames, collect the voiceover and (when present) the background music
at `volumex(0.3)`, and hand the result to the encoder.  The source performs no
validation of the segments' resolutions or frame rates. -/
def combine_media (title_clip animation_clip : VideoSegmentFile)
    (voiceover : AudioClip) (bg_music : Option AudioClip) :
    Except String FinalVideo :=
  let frames := title_clip.frames ++ animation_clip.frames
  let audio_tracks := [voiceover]
  let audio_tracks :=
    match bg_music with
    | some m => audio_tracks ++ [volumex m (3 / 10)]
    | none => audio_tracks
  Except.ok { frames := frames, audio := audio_tracks }

/-- The title of the program's own example run, as a character list. -/
def exampleTitle : List Char := "Economic Growth Analysis".toList

/-- An explicit configuration document assigning a non-default value to every
recognised key. -/
def exampleExplicit : ConfigKey → ConfigValue
  | ConfigKey.resolution => ConfigValue.pair 1920 1080
  | ConfigKey.fps => ConfigValue.num 30
  | ConfigKey.chart_types => ConfigValue.strs ["line"]
  | ConfigKey.colors => ConfigValue.colorSet "#000000" "#111111" "#222222"
  | ConfigKey.voice => ConfigValue.voiceSet 160 (1 / 2) "british"

/-- The document supplying `exampleExplicit` for every key. -/
def exampleDoc : ConfigDoc := fun k => some (exampleExplicit k)

/-- A filesystem holding `exampleDoc` at path `config.json`. -/
def exampleFS : String → Option ConfigDoc :=
  fun p => if p = "config.json" then some exampleDoc else none

/-! ## Helper lemmas -/

/-- Blending a frame with itself, weights `alpha` and `1 - alpha`, changes no
pixel: `_apply_transition` is the identity. -/
theorem transition_self (img : Image) (n : Nat) :
    _apply_transition img n = img := by
  have h : ∀ x : ℚ,
      x * min 1 ((n : ℚ) / 10) + x * (1 - min 1 ((n : ℚ) / 10)) = x := by
    intro x; ring
  simp [_apply_transition, h]

/-! ## Claim theorems -/

/-- Claim C6: the transition compositor computes each output pixel as
`current_pixel * alpha + current_pixel * (1 - alpha)` with
`alpha = min(1, frame_num / 10)`, and consequently applying the transition to
any frame at any frame index yields a frame pixel-equal to the input
(a no-op fade-to-self). -/
theorem c6_transition_fade_to_self (img : Image) (n : Nat) :
    _apply_transition img n =
      { img with pix := img.pix.map (fun x =>
          x * min 1 ((n : ℚ) / 10) + x * (1 - min 1 ((n : ℚ) / 10))) } ∧
    _apply_transition img n = img :=
  ⟨rfl, transition_self img n⟩

/-- Claim C7: `create_title_screen` writes exactly `3 * fps` frames for every
configuration, title and description; in particular, at the default
configuration (`fps = 24`) it writes exactly 72 frames. -/
theorem c7_title_frame_count (cfg : Config) (title description : List Char) :
    (create_title_screen cfg title description).length = 3 * cfg.fps ∧
    (create_title_screen default_cfg title description).length = 72 := by
  constructor
  · simp [create_title_screen]
  · simp [create_title_screen, default_cfg]

/-- Claim C1, evidence of the code bug at the default configuration
(resolution `(1280, 720)`): every title frame measures 1280 wide by 720 high
(`np.zeros((resolution[1], resolution[0], 3))`), while every chart-animation
frame is resized to 720 wide by 1280 high (`height, width = resolution`
followed by `cv2.resize(img, (width, height))`): the two segments entering
assembly do not share a resolution. -/
theorem c1_resolution_swap_evidence :
    (∀ f ∈ create_title_screen default_cfg ['T'] ['D'],
      f.width = 1280 ∧ f.height = 720) ∧
    generate_chart_animation default_cfg (fun _ _ _ => Image.mk 1600 900 [])
      (fun p _ _ => p) [2000] [1] "line" =
      Except.ok [Image.mk 720 1280 []] ∧
    (1280, 720) ≠ ((720 : Nat), (1280 : Nat)) :=
  ⟨by decide, rfl, by decide⟩

/-- Claim C4, counterexample: two segments that disagree on resolution.
`combine_media` does not fail; it succeeds and hands the concatenated stream
to the encoder, so the claimed explicit mismatch check does not exist. -/
theorem c4_counterexample :
    combine_media (VideoSegmentFile.mk 1280 720 24 [])
      (VideoSegmentFile.mk 720 1280 24 [])
      (AudioClip.mk 44100 [] 1) none =
      Except.ok (FinalVideo.mk [] [AudioClip.mk 44100 [] 1]) := rfl

/-- Claim C4 as amended: `combine_media` performs no resolution or frame-rate
validation at all.  For every pair of segments — mismatched or not — it
succeeds, concatenating the title frames then the animation frames in that
order, and hands the stream to the encoder together with the voiceover and,
when present, the background music at gain multiplier 0.3. -/
theorem c4_amended_no_validation (t a : VideoSegmentFile) (v : AudioClip)
    (m : Option AudioClip) :
    ∃ out, combine_media t a v m = Except.ok out ∧
      out.frames = t.frames ++ a.frames ∧
      out.audio = v :: (m.map (fun mc => volumex mc (3 / 10))).toList := by
  cases m <;> simp [combine_media]

/-- Claim C2: for every time series and every valid chart type,
`generate_chart_animation` emits exactly `N = years.length` frames, and the
frame at position `k` (zero-based) is the rendering of exactly the first
`k + 1` data points — resized to the writer's frame size — so the frames
appear in strictly increasing prefix-length order and playback order equals
emission order. -/
theorem c2_animation_emits_all_prefixes (cfg : Config)
    (fig_render : List Int → List ℚ → String → Image)
    (interp : List ℚ → Nat → Nat → List ℚ)
    (years : List Int) (values : List ℚ) (ct : String)
    (h : ct ∈ cfg.chart_types) :
    ∃ fs, generate_chart_animation cfg fig_render interp years values ct =
        Except.ok fs ∧
      fs.length = years.length ∧
      ∀ k, (hk : k < fs.length) → fs.get ⟨k, hk⟩ =
        cvResize interp
          (fig_render (years.take (k + 1)) (values.take (k + 1)) ct)
          (cfg.resolution.2, cfg.resolution.1) := by
  have hv : _validate_chart_type cfg ct = Except.ok () := by
    simp [_validate_chart_type, h]
  refine ⟨(List.range years.length).map (fun i =>
      if 1 < i + 1 then
        _apply_transition (cvResize interp
          (fig_render (years.take (i + 1)) (values.take (i + 1)) ct)
          (cfg.resolution.2, cfg.resolution.1)) (i + 1)
      else
        cvResize interp
          (fig_render (years.take (i + 1)) (values.take (i + 1)) ct)
          (cfg.resolution.2, cfg.resolution.1)), ?_, ?_, ?_⟩
  · simp [generate_chart_animation, hv]
  · simp
  · intro k hk
    have hk2 : k < years.length := by simpa using hk
    simp only [List.get_eq_getElem, List.getElem_map, List.getElem_range,
      transition_self, ite_self]

/-- Claim C3: for every chart type outside the configured set,
`generate_chart_animation` fails with the invalid-chart-type error before any
rendering happens — the error is the same whatever the renderer and data, and
no frame is produced; for every chart type inside the configured set the
validation does not raise and the run yields a frame list. -/
theorem c3_chart_type_validation (cfg : Config)
    (fig_render : List Int → List ℚ → String → Image)
    (interp : List ℚ → Nat → Nat → List ℚ)
    (years : List Int) (values : List ℚ) (ct : String) :
    (ct ∉ cfg.chart_types →
      generate_chart_animation cfg fig_render interp years values ct =
        Except.error ("Invalid chart type. Choose from: " ++
          String.intercalate ", " cfg.chart_types)) ∧
    (ct ∈ cfg.chart_types →
      ∃ fs, generate_chart_animation cfg fig_render interp years values ct =
        Except.ok fs) := by
  constructor
  · intro hno
    simp [generate_chart_animation, _validate_chart_type, hno]
  · intro hyes
    refine ⟨(List.range years.length).map (fun i =>
      if 1 < i + 1 then
        _apply_transition (cvResize interp
          (fig_render (years.take (i + 1)) (values.take (i + 1)) ct)
          (cfg.resolution.2, cfg.resolution.1)) (i + 1)
      else
        cvResize interp
          (fig_render (years.take (i + 1)) (values.take (i + 1)) ct)
          (cfg.resolution.2, cfg.resolution.1)), ?_⟩
    simp [generate_chart_animation, _validate_chart_type, hyes]

/-- Witness for claim C2 at a concrete two-point series and the default
configuration. -/
theorem c2_animation_emits_all_prefixes_witness :
    "line" ∈ default_cfg.chart_types ∧
    ∃ fs, generate_chart_animation default_cfg
        (fun _ _ _ => Image.mk 1600 900 []) (fun p _ _ => p)
        [2000, 2001] [5, 6] "line" = Except.ok fs ∧
      fs.length = ([2000, 2001] : List Int).length ∧
      ∀ k, (hk : k < fs.length) → fs.get ⟨k, hk⟩ =
        cvResize (fun p _ _ => p)
          ((fun _ _ _ => Image.mk 1600 900 [])
            (([2000, 2001] : List Int).take (k + 1))
            (([5, 6] : List ℚ).take (k + 1)) "line")
          (default_cfg.resolution.2, default_cfg.resolution.1) :=
  ⟨by decide,
    c2_animation_emits_all_prefixes default_cfg
      (fun _ _ _ => Image.mk 1600 900 []) (fun p _ _ => p)
      [2000, 2001] [5, 6] "line" (by decide)⟩

/-- Witness for claim C3: the rejected chart type `pie` and the accepted
chart type `line` at the default configuration. -/
theorem c3_chart_type_validation_witness :
    ("pie" ∉ default_cfg.chart_types ∧
      generate_chart_animation default_cfg (fun _ _ _ => Image.mk 1 1 [])
        (fun p _ _ => p) [1] [1] "pie" =
        Except.error ("Invalid chart type. Choose from: " ++
          String.intercalate ", " default_cfg.chart_types)) ∧
    ("line" ∈ default_cfg.chart_types ∧
      ∃ fs, generate_chart_animation default_cfg (fun _ _ _ => Image.mk 1 1 [])
        (fun p _ _ => p) [1] [1] "line" = Except.ok fs) :=
  ⟨⟨by decide,
      (c3_chart_type_validation default_cfg (fun _ _ _ => Image.mk 1 1 [])
        (fun p _ _ => p) [1] [1] "pie").1 (by decide)⟩,
    ⟨by decide,
      (c3_chart_type_validation default_cfg (fun _ _ _ => Image.mk 1 1 [])
        (fun p _ _ => p) [1] [1] "line").2 (by decide)⟩⟩

/-- Claim C8, counterexample: at the default configuration (`fps = 24`) with
the program's own 24-character example title, one third of the 72-frame title
sequence is frame 24, where only 8 of the 24 characters are visible; in fact
no frame of the whole sequence ever shows the full title, refuting "the full
title is visible by roughly one-third of the duration" for every title and
fps. -/
theorem c8_counterexample :
    ((_create_animated_frame default_cfg 24 exampleTitle ['D']).titleText.length
        = 8 ∧
      exampleTitle.length = 24) ∧
    ∀ f ∈ create_title_screen default_cfg exampleTitle ['D'],
      f.titleText ≠ exampleTitle := by
  constructor
  · decide
  · decide

/-- Claim C8 as amended: the number of visible title characters is
`⌊frame_num / 3⌋` capped at the title length — a fixed rate of one character
per three frames, independent of fps and of the total duration; the full
title is visible from frame `3 * |title|` on (which falls within the first
third of the sequence only when `3 * |title| ≤ fps`). -/
theorem c8_amended_reveal_rate (cfg : Config) (title description : List Char)
    (i : Nat) :
    (_create_animated_frame cfg i title description).titleText =
      title.take (i / 3) ∧
    (3 * title.length ≤ i →
      (_create_animated_frame cfg i title description).titleText = title) := by
  constructor
  · rfl
  · intro h
    have hlen : title.length ≤ i / 3 :=
      (Nat.le_div_iff_mul_le (by norm_num)).2 (by omega)
    simp [_create_animated_frame, List.take_of_length_le hlen]

/-- Witness for the amended claim C8: a two-character title is fully revealed
at frame 9. -/
theorem c8_amended_reveal_rate_witness :
    (_create_animated_frame default_cfg 9 ['A', 'B'] []).titleText =
      ['A', 'B'] :=
  (c8_amended_reveal_rate default_cfg ['A', 'B'] [] 9).2 (by decide)

/-- Claim C9: loading a configuration document that supplies an explicit
value for every recognised key reproduces exactly those values — no default
leaks into any explicitly-set key. -/
theorem c9_load_config_roundtrip (fs : String → Option ConfigDoc) (p : String)
    (doc : ConfigDoc) (explicit : ConfigKey → ConfigValue)
    (hfs : fs p = some doc) (hall : ∀ k, doc k = some (explicit k))
    (k : ConfigKey) :
    _load_config fs (some p) k = explicit k := by
  simp [_load_config, hfs, hall k]

/-- Witness for claim C9: the fully explicit document `exampleDoc` at path
`config.json` loads back its own fps value. -/
theorem c9_load_config_roundtrip_witness :
    _load_config exampleFS (some "config.json") ConfigKey.fps =
      ConfigValue.num 30 :=
  c9_load_config_roundtrip exampleFS "config.json" exampleDoc exampleExplicit
    rfl (fun _ => rfl) ConfigKey.fps

/-- Claim C10: when the configuration path is `None`, or names a path the
filesystem does not hold, `_load_config` returns exactly the built-in default
configuration and raises no error. -/
theorem c10_load_config_defaults (fs : String → Option ConfigDoc)
    (cp : Option String) (h : ∀ p, cp = some p → fs p = none) :
    _load_config fs cp = default_config := by
  cases cp with
  | none => rfl
  | some p => simp [_load_config, h p rfl]

/-- Witness for claim C10: the empty filesystem, with no path and with a
missing path. -/
theorem c10_load_config_defaults_witness :
    _load_config (fun _ => none) none = default_config ∧
    _load_config (fun _ => none) (some "missing.json") = default_config :=
  ⟨c10_load_config_defaults (fun _ => none) none (fun _ _ => rfl),
    c10_load_config_defaults (fun _ => none) (some "missing.json")
      (fun _ _ => rfl)⟩

end VideoGenius
